import Mathlib

/-
Shallow embedding of the tap-gorgias connector (brooklyn-data/tap-gorgias).

Source files embedded:
  tap_gorgias/tap.py      : TapGorgias (config schema, STREAM_TYPES, discover_streams)
  tap_gorgias/client.py   : GorgiasStream (url_base, get_headers, authenticator,
                            validate_response, get_url_params, get_next_page_token)
  tap_gorgias/streams.py  : TicketsStream (prepare_request, get_current_user_id,
                            create_ticket_view, delete_ticket_view, get_records),
                            PaginatedGorgiasStream (get_url_params, get_next_page_token),
                            MessagesStream, SatisfactionSurveysStream

Python dictionaries that carry configuration are modelled as association lists of
string keys to a small value type; Python dict item access (config[k], which raises
KeyError when the key is absent) is modelled with Option / Except. Machine-level
concerns do not arise: Python integers are unbounded, so pages and ids are Int / Nat.
-/

/-- A configuration value of the tap: the config holds strings (subdomain,
email_address, api_key, start_date) and integers (page_size). -/
inductive ConfigValue where
  | str (s : String)
  | int (n : Int)
  deriving DecidableEq, Repr

/-- Python str() / f-string rendering of a config value into a URL. -/
def ConfigValue.render : ConfigValue → String
  | ConfigValue.str s => s
  | ConfigValue.int n => toString n

/-- Python dict item lookup config.get(k) on the tap config, modelled on an
association list (first binding wins, as in a dict without duplicate keys). -/
def configGetItem (config : List (String × ConfigValue)) (k : String) : Option ConfigValue :=
  (config.find? (fun kv => kv.1 == k)).map (fun kv => kv.2)

/-- The property names declared in TapGorgias.config_jsonschema (tap.py lines 28-58):
subdomain, email_address, api_key, start_date and page_size.  page_size is the only
one with a default (100); ticket_view_page_size is NOT declared. -/
def declaredConfigKeys : List String :=
  ["subdomain", "email_address", "api_key", "start_date", "page_size"]

/-- GorgiasStream.url_base (client.py lines 30-33):
https://{subdomain}.gorgias.com built from the subdomain config entry. -/
def GorgiasStream.url_base (subdomain : String) : String :=
  "https://" ++ subdomain ++ ".gorgias.com"

/-- The class-level http_headers dictionary of GorgiasStream (client.py line 27). -/
def GorgiasStream.http_headers : List (String × String) :=
  [("Accept", "application/json"), ("Content-Type", "application/json")]

/-- Identity of the dictionary object returned by get_headers: either the class-level
http_headers attribute itself, or a fresh dictionary (which the code never builds). -/
inductive DictRef where
  | classHttpHeaders
  | freshDict (n : Nat)
  deriving DecidableEq, Repr

/-- The mutable store holding the class-level http_headers dictionary, shared by every
stream instance of the tap. -/
structure HeaderState where
  httpHeaders : List (String × String)
  deriving DecidableEq, Repr

/-- Python dict.update(other): bindings whose key already occurs are overwritten in
place (keeping their position); new keys are appended in order. -/
def dictUpdate (d upd : List (String × String)) : List (String × String) :=
  (d.map (fun kv =>
    match upd.find? (fun kv2 => kv2.1 == kv.1) with
    | some kv2 => (kv.1, kv2.2)
    | none => kv))
  ++ upd.filter (fun kv2 => !(d.any (fun kv => kv.1 == kv2.1)))

/-- GorgiasStream.get_headers (client.py lines 35-39):
headers = self.http_headers binds the class attribute (no copy), headers.update(...)
mutates that shared dictionary in place, and the same object is returned.  The result
is the reference that is handed back together with the mutated store. -/
def GorgiasStream.get_headers (st : HeaderState) (authHeaders : List (String × String)) :
    DictRef × HeaderState :=
  (DictRef.classHttpHeaders, { httpHeaders := dictUpdate st.httpHeaders authHeaders })

/-- Outcome of GorgiasStream.validate_response: no exception, a FatalAPIError, a
RetriableAPIError, or (for status 429) a RetriableAPIError raised after sleeping for
the parsed Retry-after header value. -/
inductive HttpOutcome where
  | ok
  | fatal (msg : String)
  | retriable (msg : String)
  | retriableAfterWait (waited : Nat) (msg : String)
  deriving DecidableEq, Repr

/-- True when the outcome raises a RetriableAPIError (with or without the prior
Retry-after sleep). -/
def HttpOutcome.isRetriable : HttpOutcome → Bool
  | HttpOutcome.retriable _ => true
  | HttpOutcome.retriableAfterWait _ _ => true
  | _ => false

/-- True when the outcome raises a FatalAPIError. -/
def HttpOutcome.isFatal : HttpOutcome → Bool
  | HttpOutcome.fatal _ => true
  | _ => false

/-- The number of seconds slept before raising, when any. -/
def HttpOutcome.waitTime : HttpOutcome → Option Nat
  | HttpOutcome.retriableAfterWait n _ => some n
  | _ => none

/-- GorgiasStream.validate_response (client.py lines 50-96).  status is the HTTP
status code, reason the response reason phrase, path the stream path, retryAfter the
parsed integer value of the Retry-after response header when present (the code uses
int(response.headers.get("Retry-after", 0)), so an absent header reads as 0). -/
def GorgiasStream.validate_response (status : Nat) (reason path : String)
    (retryAfter : Option Nat) : HttpOutcome :=
  if status = 429 then
    HttpOutcome.retriableAfterWait (retryAfter.getD 0)
      (toString status ++ " Server Error: " ++ reason ++ " for path: " ++ path ++
        ". Waiting for \x27Retry-after\x27 value of " ++ toString (retryAfter.getD 0) ++ ".")
  else if 400 ≤ status ∧ status < 500 then
    HttpOutcome.fatal
      (toString status ++ " Client Error: " ++ reason ++ " for path: " ++ path)
  else if 500 ≤ status ∧ status < 600 then
    HttpOutcome.retriable
      (toString status ++ " Server Error: " ++ reason ++ " for path: " ++ path)
  else
    HttpOutcome.ok

/-- The meta object of a cursor-paginated Gorgias page body: next_cursor is present
while more pages remain and null / absent on the last page. -/
structure CursorPageMeta where
  next_cursor : Option String
  deriving DecidableEq, Repr

/-- A cursor-paginated page body as far as pagination is concerned.  next_link
models a hypothetical next-page hyperlink field of the body; the Gorgias responses
handled by client.py do not rely on one, the field exists so that the reading of the
spec (parse the next-link for a cursor query parameter) can be stated and compared. -/
structure CursorPage where
  meta : CursorPageMeta
  next_link : Option String
  deriving DecidableEq, Repr

/-- GorgiasStream.get_next_page_token (client.py lines 115-133): the first match of
the jsonpath $.meta.next_cursor in the response body, or None when there is none. -/
def GorgiasStream.get_next_page_token (resp : CursorPage) : Option String :=
  resp.meta.next_cursor

/-- Query parameters of a URL: the part after the first ?, split on &, each piece
split at its first = into key and value. -/
def parseQueryParams (url : String) : List (String × String) :=
  match url.splitOn "?" with
  | [] => []
  | [_] => []
  | _ :: qs =>
    ((String.intercalate "?" qs).splitOn "&").filterMap (fun piece =>
      match piece.splitOn "=" with
      | k :: v :: _ => some (k, v)
      | _ => none)

/-- The token acquisition as the spec words it (spec.md section 4.2, cursor-in-
querystring): parse the page response next-link for a cursor query parameter.  This
definition follows the spec wording, to be compared with
GorgiasStream.get_next_page_token, which is what client.py does. -/
def specNextLinkCursorToken (resp : CursorPage) : Option String :=
  resp.next_link.bind (fun link =>
    ((parseQueryParams link).find? (fun kv => kv.1 == "cursor")).map (fun kv => kv.2))

/-- GorgiasStream.get_url_params (client.py lines 98-113): the dict
{"cursor": next_page_token, "limit": self.config["page_size"]}.  A parameter value of
none models Python None; config["page_size"] raises KeyError when absent. -/
def GorgiasStream.get_url_params (config : List (String × ConfigValue))
    (next_page_token : Option String) :
    Except String (List (String × Option ConfigValue)) :=
  match configGetItem config "page_size" with
  | none => Except.error "KeyError: page_size"
  | some lim =>
    Except.ok [("cursor", next_page_token.map ConfigValue.str), ("limit", some lim)]

/-- The declarative head of a stream class: its name, path, primary keys and
replication key (streams.py class attributes). -/
structure StreamDef where
  name : String
  path : String
  primary_keys : List String
  replication_key : Option String
  deriving DecidableEq, Repr

/-- TicketsStream class attributes (streams.py lines 12-21). -/
def TicketsStream.streamDef : StreamDef :=
  { name := "tickets"
    path := "/api/views/{view_id}/items"
    primary_keys := ["id"]
    replication_key := some "updated_datetime" }

/-- MessagesStream class attributes (streams.py lines 456-470): no replication key,
full refresh per parent ticket. -/
def MessagesStream.streamDef : StreamDef :=
  { name := "messages"
    path := "/api/tickets/{ticket_id}/messages"
    primary_keys := ["id"]
    replication_key := none }

/-- SatisfactionSurveysStream class attributes (streams.py lines 657-673): no
replication key, always a full refresh. -/
def SatisfactionSurveysStream.streamDef : StreamDef :=
  { name := "satisfaction_surveys"
    path := "/api/satisfaction-surveys"
    primary_keys := ["id"]
    replication_key := none }

/-- STREAM_TYPES (tap.py lines 15-20).  The list holds TicketsStream, MessagesStream
and SatisfactionSurveysStream; the CustomersStream entry is commented out in the
source (and no CustomersStream class exists in streams.py). -/
def STREAM_TYPES : List StreamDef :=
  [TicketsStream.streamDef, MessagesStream.streamDef, SatisfactionSurveysStream.streamDef]

/-- TapGorgias.discover_streams (tap.py lines 60-62): one stream instance per entry
of STREAM_TYPES. -/
def TapGorgias.discover_streams : List StreamDef :=
  STREAM_TYPES

/-- Python truthiness of the Optional next_page_token of TicketsStream
.prepare_request: None and the empty string are falsy. -/
def optStrTruthy : Option String → Bool
  | none => false
  | some s => !(s == "")

/-- Stream.get_url for TicketsStream: the url base followed by the path
/api/views/{view_id}/items with the view_id context value substituted. -/
def TicketsStream.get_url (subdomain : String) (viewId : Nat) : String :=
  GorgiasStream.url_base subdomain ++ "/api/views/" ++ toString viewId ++ "/items"

/-- TicketsStream.prepare_request (streams.py lines 266-315), reduced to the URL it
builds.  Without a token the URL is get_url plus ?limit={config[ticket_view_page_size]};
with a (truthy) token, the token is a path-with-query returned by the API and the URL
is url_base + token + &limit={config[ticket_view_page_size]}.  Both branches read the
subdomain (through get_url or url_base) and the ticket_view_page_size config entries
with dict item access, so an absent key is a KeyError. -/
def TicketsStream.prepare_request_url (config : List (String × ConfigValue))
    (viewId : Nat) (next_page_token : Option String) : Except String String :=
  match configGetItem config "subdomain" with
  | none => Except.error "KeyError: subdomain"
  | some sub =>
    match configGetItem config "ticket_view_page_size" with
    | none => Except.error "KeyError: ticket_view_page_size"
    | some lim =>
      if optStrTruthy next_page_token then
        Except.ok (GorgiasStream.url_base sub.render ++ next_page_token.getD ""
          ++ "&limit=" ++ lim.render)
      else
        Except.ok (GorgiasStream.url_base sub.render ++ "/api/views/" ++ toString viewId
          ++ "/items" ++ "?limit=" ++ lim.render)

/-- An exception raised by an HTTP call of the tap (through the decorated request):
a FatalAPIError or a RetriableAPIError whose retries were exhausted. -/
inductive Err where
  | fatalAPIError (msg : String)
  | retriableAPIError (msg : String)
  deriving DecidableEq, Repr

/-- The filter expression built by TicketsStream.create_ticket_view for a watermark
(streams.py line 348): gte(ticket.updated_datetime, <isoformat in single quotes>). -/
def gteUpdatedFilter (isoWatermark : String) : String :=
  "gte(ticket.updated_datetime, \x27" ++ isoWatermark ++ "\x27)"

/-- The JSON payload posted to /api/views by TicketsStream.create_ticket_view
(streams.py lines 336-350). -/
structure ViewPayload where
  category : String
  order_by : String
  order_dir : String
  visibility : String
  shared_with_users : List Nat
  type : String
  slug : String
  filters : Option String
  deriving DecidableEq, Repr

/-- The payload built by create_ticket_view given the resolved current user id and
the starting watermark (isoformat string); the filters entry is added exactly when a
watermark exists (a datetime object is always truthy, None is falsy). -/
def create_ticket_view_payload (currentUserId : Nat) (syncStart : Option String) :
    ViewPayload :=
  { category := "user"
    order_by := "updated_datetime"
    order_dir := "asc"
    visibility := "private"
    shared_with_users := [currentUserId]
    type := "ticket-list"
    slug := "could-be-anything"
    filters := syncStart.map gteUpdatedFilter }

/-- TicketsStream.create_ticket_view (streams.py lines 333-367): it first resolves
the current user via get_current_user_id (whose failure propagates), then posts the
payload.  The result is the payload that is posted, or the propagated error. -/
def TicketsStream.create_ticket_view (currentUser : Except Err Nat)
    (syncStart : Option String) : Except Err ViewPayload :=
  match currentUser with
  | Except.error e => Except.error e
  | Except.ok uid => Except.ok (create_ticket_view_payload uid syncStart)

/-- An observable event of one run of TicketsStream.get_records: the view was
created (the POST succeeded and returned this view id), a transformed record was
yielded, or the DELETE of the view was issued (whether or not it succeeds). -/
inductive SyncEvent where
  | createdView (viewId : Nat)
  | yielded (record : Nat)
  | deleteIssued (viewId : Nat)
  deriving DecidableEq, Repr

/-- True exactly for deleteIssued events. -/
def SyncEvent.isDeleteIssued : SyncEvent → Bool
  | SyncEvent.deleteIssued _ => true
  | _ => false

/-- The trace of one run of TicketsStream.get_records: its events in order, and its
outcome (normal exhaustion of the generator, or the exception it raises). -/
structure SyncTrace where
  events : List SyncEvent
  outcome : Except Err Unit
  deriving Repr

/-- The record loop of get_records (streams.py lines 402-407): request_records is an
iterator that yields records and may raise in the middle; each record goes through
post_process and is yielded unless filtered to None.  Returns the transformed
records yielded before the loop ended and how the loop ended. -/
def runLoop (items : List (Except Err Nat)) (post : Nat → Option Nat) :
    List Nat × Except Err Unit :=
  match items with
  | [] => ([], Except.ok ())
  | Except.error e :: _ => ([], Except.error e)
  | Except.ok r :: rest =>
    let tail := runLoop rest post
    match post r with
    | none => tail
    | some t => (t :: tail.1, tail.2)

/-- TicketsStream.get_records (streams.py lines 385-410).  create is the outcome of
create_ticket_view (view id on success); items the behaviour of the request_records
iterator; post the post_process function; del0 the outcome of delete_ticket_view per
view id.  If creation fails the error propagates with nothing else done.  Otherwise
the record loop runs inside try, and the finally block issues the delete exactly
once; a delete that raises makes the generator raise that error (in Python an
exception leaving a finally block propagates, replacing any in-flight loop error),
and otherwise the loop outcome stands. -/
def TicketsStream.get_records (create : Except Err Nat) (items : List (Except Err Nat))
    (post : Nat → Option Nat) (del0 : Nat → Except Err Unit) : SyncTrace :=
  match create with
  | Except.error e => { events := [], outcome := Except.error e }
  | Except.ok viewId =>
    let loop := runLoop items post
    let events := SyncEvent.createdView viewId :: loop.1.map SyncEvent.yielded
      ++ [SyncEvent.deleteIssued viewId]
    match del0 viewId with
    | Except.ok _ => { events := events, outcome := loop.2 }
    | Except.error e => { events := events, outcome := Except.error e }

/-- The meta object of a page-number-paginated Gorgias page body (messages,
satisfaction surveys): the current page and the number of pages. -/
structure PageMeta where
  page : Int
  nb_pages : Int
  deriving DecidableEq, Repr

/-- PaginatedGorgiasStream.get_next_page_token (streams.py lines 435-453): page + 1
while nb_pages > page, otherwise None (the Python function falls through without a
return). -/
def PaginatedGorgiasStream.get_next_page_token (meta : PageMeta) : Option Int :=
  if meta.nb_pages > meta.page then some (meta.page + 1) else none

/-- PaginatedGorgiasStream.get_url_params (streams.py lines 418-433): the single
parameter page set to the token (None on the first request). -/
def PaginatedGorgiasStream.get_url_params (next_page_token : Option Int) :
    List (String × Option Int) :=
  [("page", next_page_token)]

/-- Helper: a key that does not occur among the config keys looks up to none
(Python KeyError on item access). -/
theorem configGetItem_eq_none_of_not_mem_keys (config : List (String × ConfigValue))
    (k : String) (hk : k ∉ config.map Prod.fst) : configGetItem config k = none := by
  unfold configGetItem
  have h : config.find? (fun kv => kv.1 == k) = none := by
    rw [List.find?_eq_none]
    intro kv hkv hbeq
    exact hk (List.mem_map.mpr ⟨kv, hkv, beq_iff_eq.mp hbeq⟩)
  rw [h]
  rfl

/-- Helper: a key that occurs among the config keys looks up to some value. -/
theorem configGetItem_isSome_of_mem_keys (config : List (String × ConfigValue))
    (k : String) (hk : k ∈ config.map Prod.fst) :
    ∃ v, configGetItem config k = some v := by
  obtain ⟨kv, hkv, hfst⟩ := List.mem_map.mp hk
  have h : (config.find? (fun kv => kv.1 == k)).isSome := by
    rw [List.find?_isSome]
    exact ⟨kv, hkv, beq_iff_eq.mpr hfst⟩
  obtain ⟨w, hw⟩ := Option.isSome_iff_exists.mp h
  exact ⟨w.2, by unfold configGetItem; rw [hw]; rfl⟩

/-- Helper: yielded events are never delete events. -/
theorem filter_isDeleteIssued_map_yielded (ys : List Nat) :
    (ys.map SyncEvent.yielded).filter SyncEvent.isDeleteIssued = [] := by
  induction ys with
  | nil => rfl
  | cons y ys ih => simp [SyncEvent.isDeleteIssued, ih]

/-- C3: for every HTTP response, validate_response raises a retriable error exactly
when the status code is 429 (after waiting the server-supplied Retry-after delay,
defaulting to 0) or is in 500..599, raises a fatal error exactly when the status code
is in 400..499 excluding 429, and raises nothing otherwise. -/
theorem C3_validate_response_classification (status : Nat) (reason path : String)
    (ra : Option Nat) :
    ((GorgiasStream.validate_response status reason path ra).isRetriable = true ↔
      (status = 429 ∨ (500 ≤ status ∧ status ≤ 599))) ∧
    ((GorgiasStream.validate_response status reason path ra).isFatal = true ↔
      (400 ≤ status ∧ status ≤ 499 ∧ status ≠ 429)) ∧
    (GorgiasStream.validate_response status reason path ra = HttpOutcome.ok ↔
      (status < 400 ∨ 600 ≤ status)) ∧
    ((GorgiasStream.validate_response status reason path ra).waitTime =
      if status = 429 then some (ra.getD 0) else none) := by
  unfold GorgiasStream.validate_response
  split_ifs with h1 h2 h3 <;>
    simp_all [HttpOutcome.isRetriable, HttpOutcome.isFatal, HttpOutcome.waitTime] <;>
    omega

/-- C6: for a page-number-paginated stream (messages, satisfaction surveys), the next
page token is page + 1 when page < nb_pages and none (termination) when
page >= nb_pages. -/
theorem C6_page_number_pagination (page nb_pages : Int) :
    (page < nb_pages →
      PaginatedGorgiasStream.get_next_page_token { page := page, nb_pages := nb_pages }
        = some (page + 1)) ∧
    (nb_pages ≤ page →
      PaginatedGorgiasStream.get_next_page_token { page := page, nb_pages := nb_pages }
        = none) := by
  unfold PaginatedGorgiasStream.get_next_page_token
  constructor
  · intro h
    simp only [gt_iff_lt]
    rw [if_pos h]
  · intro h
    simp only [gt_iff_lt]
    rw [if_neg (by omega)]

/-- Witness for C6 at page 2 of 5 (next token 3) and page 5 of 5 (termination). -/
theorem C6_page_number_pagination_witness :
    PaginatedGorgiasStream.get_next_page_token { page := 2, nb_pages := 5 } = some 3 ∧
    PaginatedGorgiasStream.get_next_page_token { page := 5, nb_pages := 5 } = none :=
  ⟨(C6_page_number_pagination 2 5).1 (by norm_num),
   (C6_page_number_pagination 5 5).2 (by norm_num)⟩

/-- C2 counterexample: discover_streams yields three stream definitions, not four,
and none of them is the customers stream (CustomersStream is commented out of
STREAM_TYPES in tap.py). -/
theorem C2_counterexample_three_streams_discovered :
    TapGorgias.discover_streams.length ≠ 4 ∧
    "customers" ∉ TapGorgias.discover_streams.map StreamDef.name := by
  constructor
  · decide
  · decide

/-- C2 amended: discover_streams returns exactly three stream definitions — tickets,
messages and satisfaction surveys — each declaring a path, the primary key id, and a
replication cursor field exactly for tickets (updated_datetime). -/
theorem C2_discover_streams_three_definitions :
    TapGorgias.discover_streams.map StreamDef.name =
      ["tickets", "messages", "satisfaction_surveys"] ∧
    TapGorgias.discover_streams.map StreamDef.path =
      ["/api/views/{view_id}/items", "/api/tickets/{ticket_id}/messages",
        "/api/satisfaction-surveys"] ∧
    TapGorgias.discover_streams.map StreamDef.primary_keys = [["id"], ["id"], ["id"]] ∧
    TapGorgias.discover_streams.map StreamDef.replication_key =
      [some "updated_datetime", none, none] :=
  ⟨rfl, rfl, rfl, rfl⟩

/-- C4: if view creation fails, get_records raises that error with no record yielded
and no view delete attempted (the try block around the loop is never entered). -/
theorem C4_create_failure_aborts_without_delete (e : Err) (items : List (Except Err Nat))
    (post : Nat → Option Nat) (del0 : Nat → Except Err Unit) :
    (TicketsStream.get_records (Except.error e) items post del0).events = [] ∧
    (TicketsStream.get_records (Except.error e) items post del0).outcome =
      Except.error e :=
  ⟨rfl, rfl⟩

/-- C1 amended: whenever view creation succeeds, get_records issues exactly one
delete of the created view on every exit path of the record loop, but a failure of
that delete call propagates out of the generator (in Python an exception raised in a
finally block escapes, replacing any in-flight loop error), so it IS escalated to a
fatal error of the sync. -/
theorem C1_delete_once_but_delete_failure_escalates
    (create : Except Err Nat) (items : List (Except Err Nat)) (post : Nat → Option Nat)
    (del0 : Nat → Except Err Unit) (v : Nat) (hc : create = Except.ok v) :
    ((TicketsStream.get_records create items post del0).events.filter
      SyncEvent.isDeleteIssued = [SyncEvent.deleteIssued v]) ∧
    (∀ e, del0 v = Except.error e →
      (TicketsStream.get_records create items post del0).outcome = Except.error e) := by
  subst hc
  constructor
  · cases hd : del0 v <;>
      simp [TicketsStream.get_records, hd, List.filter_append,
        filter_isDeleteIssued_map_yielded, SyncEvent.isDeleteIssued]
  · intro e he
    simp [TicketsStream.get_records, he]

/-- Witness for C1 at a run whose creation returns view 7, whose loop yields one
record, and whose delete call fails. -/
theorem C1_delete_once_witness :
    ((TicketsStream.get_records (Except.ok 7) [Except.ok 1] some
        (fun _ => Except.error (Err.fatalAPIError "delete failed"))).events.filter
      SyncEvent.isDeleteIssued = [SyncEvent.deleteIssued 7]) ∧
    ((TicketsStream.get_records (Except.ok 7) [Except.ok 1] some
        (fun _ => Except.error (Err.fatalAPIError "delete failed"))).outcome =
      Except.error (Err.fatalAPIError "delete failed")) :=
  ⟨(C1_delete_once_but_delete_failure_escalates (Except.ok 7) [Except.ok 1] some
      (fun _ => Except.error (Err.fatalAPIError "delete failed")) 7 rfl).1,
   (C1_delete_once_but_delete_failure_escalates (Except.ok 7) [Except.ok 1] some
      (fun _ => Except.error (Err.fatalAPIError "delete failed")) 7 rfl).2
      (Err.fatalAPIError "delete failed") rfl⟩

/-- C1 counterexample: a run where creation succeeds and the record loop completes
normally, yet the sync does not finish cleanly, because the failure of the cleanup
delete propagates.  This refutes the claim that a delete failure is not escalated to
a fatal error of the sync. -/
theorem C1_counterexample_delete_failure_is_escalated :
    (runLoop [Except.ok 1] some).2 = Except.ok () ∧
    (TicketsStream.get_records (Except.ok 7) [Except.ok 1] some
        (fun _ => Except.error (Err.retriableAPIError "delete boom"))).outcome =
      Except.error (Err.retriableAPIError "delete boom") ∧
    (TicketsStream.get_records (Except.ok 7) [Except.ok 1] some
        (fun _ => Except.error (Err.retriableAPIError "delete boom"))).outcome ≠
      Except.ok () := by
  refine ⟨rfl, rfl, ?_⟩
  intro h
  simp [TicketsStream.get_records, runLoop] at h

/-- C5: view creation resolves the current authenticated user and posts a payload
shared with exactly that user, ordered ascending by updated_datetime, whose filters
entry gte(ticket.updated_datetime, watermark) is present exactly when a starting
watermark exists; and in get_records the view creation precedes any yielded record
(the head of any trace with a yield is the createdView event). -/
theorem C5_view_creation_contract (uid : Nat) (w : Option String) :
    (TicketsStream.create_ticket_view (Except.ok uid) w =
      Except.ok (create_ticket_view_payload uid w)) ∧
    (create_ticket_view_payload uid w).shared_with_users = [uid] ∧
    (create_ticket_view_payload uid w).order_by = "updated_datetime" ∧
    (create_ticket_view_payload uid w).order_dir = "asc" ∧
    (create_ticket_view_payload uid w).filters = w.map gteUpdatedFilter ∧
    (∀ (create : Except Err Nat) (items : List (Except Err Nat))
        (post : Nat → Option Nat) (del0 : Nat → Except Err Unit) (r : Nat),
      SyncEvent.yielded r ∈ (TicketsStream.get_records create items post del0).events →
      ∃ v, create = Except.ok v ∧
        (TicketsStream.get_records create items post del0).events.head? =
          some (SyncEvent.createdView v)) := by
  refine ⟨rfl, rfl, rfl, rfl, rfl, ?_⟩
  intro create items post del0 r hmem
  cases create with
  | error e => simp [TicketsStream.get_records] at hmem
  | ok v =>
    refine ⟨v, rfl, ?_⟩
    cases hd : del0 v <;> simp [TicketsStream.get_records, hd]

/-- Witness for C5 at user 3, watermark 2023-01-02T03:04:05, and a run of view 5
yielding record 1. -/
theorem C5_view_creation_contract_witness :
    (TicketsStream.create_ticket_view (Except.ok 3) (some "2023-01-02T03:04:05") =
      Except.ok (create_ticket_view_payload 3 (some "2023-01-02T03:04:05"))) ∧
    ∃ v, (Except.ok 5 : Except Err Nat) = Except.ok v ∧
      (TicketsStream.get_records (Except.ok 5) [Except.ok 1] some
        (fun _ => Except.ok ())).events.head? = some (SyncEvent.createdView v) :=
  ⟨(C5_view_creation_contract 3 (some "2023-01-02T03:04:05")).1,
   (C5_view_creation_contract 3 (some "2023-01-02T03:04:05")).2.2.2.2.2
     (Except.ok 5) [Except.ok 1] some (fun _ => Except.ok ()) 1 (by decide)⟩

/-- C7: the prepared tickets request URL is url_base + token + page-size limit when a
(truthy) token is present, and the view-items path with the limit as its only query
parameter when no token is present; url_base is https://{subdomain}.gorgias.com. -/
theorem C7_tickets_prepare_request_url (config : List (String × ConfigValue))
    (sub lim : ConfigValue) (viewId : Nat) (t : String)
    (hsub : configGetItem config "subdomain" = some sub)
    (hlim : configGetItem config "ticket_view_page_size" = some lim) :
    (GorgiasStream.url_base sub.render =
      "https://" ++ sub.render ++ ".gorgias.com") ∧
    (t ≠ "" →
      TicketsStream.prepare_request_url config viewId (some t) =
        Except.ok (GorgiasStream.url_base sub.render ++ t ++ "&limit=" ++ lim.render)) ∧
    (TicketsStream.prepare_request_url config viewId none =
      Except.ok (GorgiasStream.url_base sub.render ++ "/api/views/" ++ toString viewId
        ++ "/items" ++ "?limit=" ++ lim.render)) := by
  refine ⟨rfl, ?_, ?_⟩
  · intro ht
    unfold TicketsStream.prepare_request_url
    rw [hsub, hlim]
    simp [optStrTruthy, ht]
  · unfold TicketsStream.prepare_request_url
    rw [hsub, hlim]
    simp [optStrTruthy]

/-- Witness for C7 with subdomain acme, ticket_view_page_size 500, view 42 and the
token path returned by the API for the next page. -/
theorem C7_tickets_prepare_request_url_witness :
    TicketsStream.prepare_request_url
        [("subdomain", ConfigValue.str "acme"),
          ("ticket_view_page_size", ConfigValue.int 500)]
        42 (some "/api/views/42/items?cursor=abc") =
      Except.ok (GorgiasStream.url_base (ConfigValue.str "acme").render ++
        "/api/views/42/items?cursor=abc" ++ "&limit=" ++ (ConfigValue.int 500).render) :=
  (C7_tickets_prepare_request_url
      [("subdomain", ConfigValue.str "acme"),
        ("ticket_view_page_size", ConfigValue.int 500)]
      (ConfigValue.str "acme") (ConfigValue.int 500) 42
      "/api/views/42/items?cursor=abc" rfl rfl).2.1 (by decide)

/-- C8 counterexample: a page body whose meta.next_cursor is abc123 and which has no
next-link at all.  The code returns abc123 as the next token, while the behaviour
described by the claim (parse the next-link for a cursor query parameter) yields
none, so the token is not obtained by parsing a next-link. -/
theorem C8_counterexample_token_not_from_next_link :
    GorgiasStream.get_next_page_token
        { meta := { next_cursor := some "abc123" }, next_link := none } = some "abc123" ∧
    specNextLinkCursorToken
        { meta := { next_cursor := some "abc123" }, next_link := none } = none ∧
    GorgiasStream.get_next_page_token
        { meta := { next_cursor := some "abc123" }, next_link := none } ≠
      specNextLinkCursorToken
        { meta := { next_cursor := some "abc123" }, next_link := none } := by
  refine ⟨rfl, rfl, by decide⟩

/-- C8 amended: the next-page token of the base streams is the meta.next_cursor
field of the page response body (first jsonpath match, none when absent), and every
request replays the token as the cursor URL query parameter alongside limit set to
the configured page size. -/
theorem C8_cursor_token_from_meta_and_replayed (resp : CursorPage)
    (config : List (String × ConfigValue)) (lim : ConfigValue) (tok : Option String)
    (hlim : configGetItem config "page_size" = some lim) :
    GorgiasStream.get_next_page_token resp = resp.meta.next_cursor ∧
    GorgiasStream.get_url_params config tok =
      Except.ok [("cursor", tok.map ConfigValue.str), ("limit", some lim)] := by
  constructor
  · rfl
  · unfold GorgiasStream.get_url_params
    rw [hlim]

/-- Witness for C8 at a concrete page body and the config page_size 100. -/
theorem C8_cursor_token_witness :
    GorgiasStream.get_next_page_token
        { meta := { next_cursor := some "tok9" }, next_link := none } =
      CursorPageMeta.next_cursor { next_cursor := some "tok9" } ∧
    GorgiasStream.get_url_params [("page_size", ConfigValue.int 100)] (some "tok9") =
      Except.ok [("cursor", (some "tok9").map ConfigValue.str),
        ("limit", some (ConfigValue.int 100))] :=
  C8_cursor_token_from_meta_and_replayed
    { meta := { next_cursor := some "tok9" }, next_link := none }
    [("page_size", ConfigValue.int 100)] (ConfigValue.int 100) (some "tok9") rfl

/-- C9: ticket_view_page_size is not among the declared config keys, so under any
configuration holding exactly the declared keys (defaults applied), the tickets
prepare_request fails with a KeyError on ticket_view_page_size, while the base
streams get_url_params reads the declared page_size key successfully. -/
theorem C9_ticket_view_page_size_not_declared (config : List (String × ConfigValue))
    (viewId : Nat) (tok : Option String)
    (hkeys : config.map Prod.fst = declaredConfigKeys) :
    "ticket_view_page_size" ∉ declaredConfigKeys ∧
    TicketsStream.prepare_request_url config viewId tok =
      Except.error "KeyError: ticket_view_page_size" ∧
    ∃ lim, GorgiasStream.get_url_params config tok =
      Except.ok [("cursor", tok.map ConfigValue.str), ("limit", some lim)] := by
  refine ⟨by decide, ?_, ?_⟩
  · have hs : "subdomain" ∈ config.map Prod.fst := by rw [hkeys]; decide
    have htv : "ticket_view_page_size" ∉ config.map Prod.fst := by rw [hkeys]; decide
    obtain ⟨sub, hsub⟩ := configGetItem_isSome_of_mem_keys config _ hs
    have hnone := configGetItem_eq_none_of_not_mem_keys config _ htv
    unfold TicketsStream.prepare_request_url
    rw [hsub, hnone]
  · have hp : "page_size" ∈ config.map Prod.fst := by rw [hkeys]; decide
    obtain ⟨lim, hlim⟩ := configGetItem_isSome_of_mem_keys config _ hp
    refine ⟨lim, ?_⟩
    unfold GorgiasStream.get_url_params
    rw [hlim]

/-- Witness for C9 at the configuration holding exactly the declared keys with the
page_size default 100 applied. -/
theorem C9_ticket_view_page_size_witness :
    "ticket_view_page_size" ∉ declaredConfigKeys ∧
    TicketsStream.prepare_request_url
        [("subdomain", ConfigValue.str "acme"),
          ("email_address", ConfigValue.str "dev@acme.io"),
          ("api_key", ConfigValue.str "k1"),
          ("start_date", ConfigValue.str "2022-01-01T00:00:00Z"),
          ("page_size", ConfigValue.int 100)] 3 none =
      Except.error "KeyError: ticket_view_page_size" :=
  ⟨(C9_ticket_view_page_size_not_declared
      [("subdomain", ConfigValue.str "acme"),
        ("email_address", ConfigValue.str "dev@acme.io"),
        ("api_key", ConfigValue.str "k1"),
        ("start_date", ConfigValue.str "2022-01-01T00:00:00Z"),
        ("page_size", ConfigValue.int 100)] 3 none rfl).1,
   (C9_ticket_view_page_size_not_declared
      [("subdomain", ConfigValue.str "acme"),
        ("email_address", ConfigValue.str "dev@acme.io"),
        ("api_key", ConfigValue.str "k1"),
        ("start_date", ConfigValue.str "2022-01-01T00:00:00Z"),
        ("page_size", ConfigValue.int 100)] 3 none rfl).2.1⟩

/-- C10: get_headers returns the class-level http_headers dictionary itself (no
copy), mutated in place with the auth headers; a second call starting from the
mutated store sees the first mutation, and on the initial class value the shared
dictionary afterwards holds the Authorization binding appended to the two original
bindings. -/
theorem C10_get_headers_returns_shared_mutated_dict (st : HeaderState)
    (auth : List (String × String)) :
    (GorgiasStream.get_headers st auth).1 = DictRef.classHttpHeaders ∧
    (GorgiasStream.get_headers st auth).2.httpHeaders = dictUpdate st.httpHeaders auth ∧
    (∀ auth2 : List (String × String),
      (GorgiasStream.get_headers (GorgiasStream.get_headers st auth).2 auth2).2.httpHeaders
        = dictUpdate (dictUpdate st.httpHeaders auth) auth2) ∧
    (GorgiasStream.get_headers { httpHeaders := GorgiasStream.http_headers }
        [("Authorization", "Basic abc")]).2.httpHeaders =
      [("Accept", "application/json"), ("Content-Type", "application/json"),
        ("Authorization", "Basic abc")] :=
  ⟨rfl, rfl, fun _ => rfl, by decide⟩
